import Mathlib

/-!
Verification of the reconnecting-websocket client (`src/emitter.rs`,
`src/simple_rpc.rs`, `src/core.rs`, `src/factory.rs`, `src/lib.rs`).

The Rust code is shallowly embedded: pure functions become Lean functions,
stateful methods take and return explicit state, and JS/transport effects
(frames sent, timers scheduled, callbacks invoked, console logs) are
returned as explicit effect records.  A Rust panic (`unwrap` / `expect`)
is modelled as `Except.error msg`.  Boxed Rust closures (`Callback`,
`RPCHandler`) are modelled as opaque numeric identifiers, and "invoking"
one is recorded as an event carrying the identifier and the argument.

The external crates `serde_json` and `jsonrpc_core` are embedded at the
granularity the client uses them: `serde_json::Value` becomes `Json`
(object keys kept sorted, matching the serde_json default `BTreeMap` map
representation), `serde_json::from_str` becomes `parseJson`,
`Value::to_string` becomes `Json.render`, and the `jsonrpc_core`
function `Response::from_json` becomes `Response.from_json` below.
-/

set_option autoImplicit false

namespace WsClient

/-- Left brace character, written via its code point. -/
def lbrace : Char := Char.ofNat 123

/-- Right brace character, written via its code point. -/
def rbrace : Char := Char.ofNat 125

/-- Embedding of `serde_json::Value` restricted to the JSON fragment this
client exchanges: null, booleans, (signed) integers, strings, arrays and
objects.  Objects carry their fields as a list kept sorted by key, the
observable behaviour of the serde_json default `BTreeMap` object
representation. -/
inductive Json where
  | null : Json
  | bool (b : Bool) : Json
  | num (n : Int) : Json
  | str (s : String) : Json
  | arr (elems : List Json) : Json
  | obj (fields : List (String × Json)) : Json
  deriving Inhabited

namespace Json

/-- Lexicographic order on character lists by code point, the order the
Rust `Ord` instance for `String` induces on the ASCII keys this client
exchanges. -/
def keyLt : List Char → List Char → Bool
  | [], [] => false
  | [], _ :: _ => true
  | _ :: _, [] => false
  | a :: as, b :: bs => if a = b then keyLt as bs else decide (a.toNat < b.toNat)

/-- Insert a field into a key-sorted field list, replacing an existing
binding of the same key (serde_json: later duplicate keys win, map kept
ordered by key). -/
def objInsert (key : String) (v : Json) : List (String × Json) → List (String × Json)
  | [] => [(key, v)]
  | (k, w) :: rest =>
    if key = k then (key, v) :: rest
    else if keyLt key.data k.data then (key, v) :: (k, w) :: rest
    else (k, w) :: objInsert key v rest

/-- Field lookup in the field list of an object. -/
def objGet (key : String) : List (String × Json) → Option Json
  | [] => none
  | (k, w) :: rest => if k = key then some w else objGet key rest

/-- Embedding of the serde_json immutable string indexing `value[key]`:
yields the value of the field, or `Null` when the key is absent or the value
is not an object. -/
def index (j : Json) (key : String) : Json :=
  match j with
  | obj fields => (objGet key fields).getD Json.null
  | _ => Json.null

/-- String-body escaping used by `Value::to_string` for the characters
appearing in this development (quote and backslash). -/
def escapeChar (c : Char) : List Char :=
  if c = '"' then ['\\', '"']
  else if c = '\\' then ['\\', '\\']
  else [c]

/-- Render a JSON string literal including the surrounding quotes. -/
def renderString (s : String) : String :=
  String.mk ('"' :: (s.data.foldr (fun c acc => escapeChar c ++ acc) ['"']))

mutual

/-- Embedding of `serde_json::Value::to_string`: compact rendering with no
whitespace, object fields in stored (key-sorted) order. -/
def render : Json → String
  | .null => "null"
  | .bool b => if b then "true" else "false"
  | .num n => toString n
  | .str s => renderString s
  | .arr elems => "[" ++ renderList elems ++ "]"
  | .obj fields => String.mk [lbrace] ++ renderFields fields ++ String.mk [rbrace]

/-- Render array elements, comma-separated. -/
def renderList : List Json → String
  | [] => ""
  | [x] => render x
  | x :: y :: rest => render x ++ "," ++ renderList (y :: rest)

/-- Render object fields, comma-separated. -/
def renderFields : List (String × Json) → String
  | [] => ""
  | [(k, v)] => renderString k ++ ":" ++ render v
  | (k, v) :: f :: rest => renderString k ++ ":" ++ render v ++ "," ++ renderFields (f :: rest)

end

end Json

/-- Whitespace skipping of the JSON grammar. -/
def skipWs : List Char → List Char
  | [] => []
  | c :: cs => if c = ' ' ∨ c = '\n' ∨ c = '\t' ∨ c = '\r' then skipWs cs else c :: cs

/-- Parse a run of decimal digits into an accumulator; fails on an empty
run. -/
def parseDigits (acc : Option Nat) : List Char → Option Nat × List Char
  | [] => (acc, [])
  | c :: cs =>
    if c.isDigit then
      parseDigits (some ((acc.getD 0) * 10 + (c.toNat - 48))) cs
    else (acc, c :: cs)

/-- Parse the body of a JSON string literal after the opening quote,
handling the simple backslash escapes. -/
def parseStringBody (fuel : Nat) (acc : List Char) (cs : List Char) :
    Option (String × List Char) :=
  match fuel with
  | 0 => none
  | fuel + 1 =>
    match cs with
    | [] => none
    | '"' :: rest => some (String.mk acc.reverse, rest)
    | '\\' :: e :: rest =>
      let dec : Option Char :=
        if e = '"' then some '"'
        else if e = '\\' then some '\\'
        else if e = '/' then some '/'
        else if e = 'n' then some '\n'
        else if e = 't' then some '\t'
        else if e = 'r' then some '\r'
        else none
      match dec with
      | some d => parseStringBody fuel (d :: acc) rest
      | none => none
    | c :: rest => parseStringBody fuel (c :: acc) rest

mutual

/-- Fuel-based recursive-descent parser for the JSON fragment of
`serde_json::from_str` used by this client (integers only among numbers). -/
def parseValue (fuel : Nat) (cs : List Char) : Option (Json × List Char) :=
  match fuel with
  | 0 => none
  | fuel + 1 =>
    match skipWs cs with
    | 'n' :: 'u' :: 'l' :: 'l' :: rest => some (Json.null, rest)
    | 't' :: 'r' :: 'u' :: 'e' :: rest => some (Json.bool true, rest)
    | 'f' :: 'a' :: 'l' :: 's' :: 'e' :: rest => some (Json.bool false, rest)
    | '"' :: rest =>
      match parseStringBody (rest.length + 1) [] rest with
      | some (s, rest2) => some (Json.str s, rest2)
      | none => none
    | '-' :: rest =>
      (match parseDigits none rest with
       | (some n, rest2) => some (Json.num (-(n : Int)), rest2)
       | (none, _) => none)
    | '[' :: rest =>
      (match skipWs rest with
       | ']' :: rest2 => some (Json.arr [], rest2)
       | other => match parseElems fuel other with
                  | some (elems, rest2) => some (Json.arr elems, rest2)
                  | none => none)
    | c :: rest =>
      if c = lbrace then
        match skipWs rest with
        | c2 :: rest2 =>
          if c2 = rbrace then some (Json.obj [], rest2)
          else
            (match parseFields fuel (c2 :: rest2) with
             | some (fields, rest3) => some (Json.obj fields, rest3)
             | none => none)
        | [] => none
      else if c.isDigit then
        match parseDigits none (c :: rest) with
        | (some n, rest2) => some (Json.num (n : Int), rest2)
        | (none, _) => none
      else none
    | [] => none

/-- Parse one or more comma-separated array elements up to the closing
bracket. -/
def parseElems (fuel : Nat) (cs : List Char) : Option (List Json × List Char) :=
  match fuel with
  | 0 => none
  | fuel + 1 =>
    match parseValue fuel cs with
    | none => none
    | some (v, rest) =>
      match skipWs rest with
      | ',' :: rest2 =>
        (match parseElems fuel rest2 with
         | some (elems, rest3) => some (v :: elems, rest3)
         | none => none)
      | ']' :: rest2 => some ([v], rest2)
      | _ => none

/-- Parse one or more comma-separated object fields up to the closing
brace, inserting each into the sorted field list. -/
def parseFields (fuel : Nat) (cs : List Char) : Option (List (String × Json) × List Char) :=
  match fuel with
  | 0 => none
  | fuel + 1 =>
    match skipWs cs with
    | '"' :: rest =>
      (match parseStringBody (rest.length + 1) [] rest with
       | none => none
       | some (key, rest2) =>
         match skipWs rest2 with
         | ':' :: rest3 =>
           (match parseValue fuel rest3 with
            | none => none
            | some (v, rest4) =>
              match skipWs rest4 with
              | ',' :: rest5 =>
                (match parseFields fuel rest5 with
                 | some (fields, rest6) => some (Json.objInsert key v fields, rest6)
                 | none => none)
              | c :: rest5 =>
                if c = rbrace then some ([(key, v)], rest5) else none
              | [] => none)
         | _ => none)
    | _ => none

end

/-- Embedding of `serde_json::from_str::<Value>`: parse a whole string as
one JSON value with nothing but whitespace after it. -/
def parseJson (s : String) : Option Json :=
  match parseValue (s.length + 1) s.data with
  | some (v, rest) => if skipWs rest = [] then some v else none
  | none => none

/-! ## Emitter (`src/emitter.rs`) -/

/-- Identifier standing for one boxed Rust closure `Box<dyn Fn(&Payload)>`
stored in the emitter; invoking the closure is recorded as an event
carrying this identifier. -/
abbrev Callback := Nat

/-- Embedding of `emitter::Payload`.  The dispatch code of the client only
ever constructs the `Data` variant; the event-carrying variants wrap
opaque browser objects and never flow through the functions embedded
here. -/
inductive Payload where
  | Data (value : String)
  deriving DecidableEq

/-- Embedding of `emitter::Emitter`: the `handlers: HashMap<String,
Callback>` field, modelled as an association list with unique keys kept
in registration order.  The Rust `HashMap` iterates its keys in an
unspecified order, so every consumer of `get_handlers_names` below takes
the enumeration as an arbitrary permutation of these keys. -/
structure Emitter where
  handlers : List (String × Callback)
  deriving DecidableEq

/-- Effects of one `Emitter::emit` call: callback invocations and console
logs, in order. -/
structure EmitOut where
  invoked : List (Callback × Payload)
  logs : List String
  deriving DecidableEq

namespace Emitter

/-- Embedding of `Emitter::new`. -/
def new : Emitter := ⟨[]⟩

/-- Insert-or-replace on an association list, the observable content
change of `HashMap::insert`. -/
def insertReplace (key : String) (cb : Callback) : List (String × Callback) → List (String × Callback)
  | [] => [(key, cb)]
  | (k, v) :: rest =>
    if k = key then (key, cb) :: rest else (k, v) :: insertReplace key cb rest

/-- Embedding of `Emitter::on`: `self.handlers.insert(handler_name, handler)`. -/
def «on» (e : Emitter) (handler_name : String) (handler : Callback) : Emitter :=
  ⟨insertReplace handler_name handler e.handlers⟩

/-- Remove a key from an association list (`HashMap::remove`). -/
def removeKey (key : String) : List (String × Callback) → List (String × Callback)
  | [] => []
  | (k, v) :: rest => if k = key then rest else (k, v) :: removeKey key rest

/-- Embedding of `Emitter::off`: `self.handlers.remove(&handler_name)`. -/
def off (e : Emitter) (handler_name : String) : Emitter :=
  ⟨removeKey handler_name e.handlers⟩

/-- Association-list lookup (`HashMap::get`). -/
def findCb (key : String) : List (String × Callback) → Option Callback
  | [] => none
  | (k, v) :: rest => if k = key then some v else findCb key rest

/-- Embedding of `Emitter::emit`: invoke the registered callback if
present, otherwise log a "handler not found" diagnostic; never an
error. -/
def emit (e : Emitter) (handler_name : String) (payload : Payload) : EmitOut :=
  match findCb handler_name e.handlers with
  | some handler => { invoked := [(handler, payload)], logs := [] }
  | none => { invoked := [], logs := [ "handler with name: " ++ handler_name ++ " not found"] }

/-- The registered topic names in registration order.  `Emitter::
get_handlers_names` returns these in the unspecified key order of the
`HashMap`; theorems quantify over permutations of this list. -/
def keys (e : Emitter) : List String :=
  e.handlers.map Prod.fst

end Emitter

/-! ## RPC correlation (`src/simple_rpc.rs`) -/

/-- Identifier standing for one boxed Rust closure `Box<dyn Fn(String)>`
registered as an RPC success or error handler. -/
abbrev RPCHandler := Nat

/-- Embedding of `jsonrpc_core::Version` (only `V2`, the `"2.0"` tag,
exists). -/
inductive Version where
  | V2
  deriving DecidableEq

/-- Embedding of `jsonrpc_core::Id`. -/
inductive Id where
  | Null
  | Num (n : Nat)
  | Str (s : String)
  deriving DecidableEq

/-- Embedding of `jsonrpc_core::Error` restricted to the fields the client
reads (the numeric code and the message). -/
structure ErrorObj where
  code : Int
  message : String

/-- Embedding of `jsonrpc_core::Success`. -/
structure Success where
  jsonrpc : Option Version
  result : Json
  id : Id

/-- Embedding of `jsonrpc_core::Failure`. -/
structure Failure where
  jsonrpc : Option Version
  error : ErrorObj
  id : Id

/-- Embedding of `jsonrpc_core::Output` (untagged: an object with a
`result` field is a `Success`, one with an `error` field a `Failure`). -/
inductive Output where
  | Success (s : Success)
  | Failure (f : Failure)

/-- Embedding of `jsonrpc_core::Response` (untagged: a single output or a
batch array). -/
inductive Response where
  | Single (o : Output)
  | Batch (os : List Output)

/-- Deserialize a JSON value as a `jsonrpc_core::Id` (untagged: null,
u64 number, or string). -/
def deserializeId : Json → Option Id
  | .null => some Id.Null
  | .num n => if 0 ≤ n ∧ n < (2 : Int) ^ 64 then some (Id.Num n.toNat) else none
  | .str s => some (Id.Str s)
  | _ => none

/-- Deserialize the optional `jsonrpc` field: absent is accepted, present
it must be the string `"2.0"`. -/
def deserializeVersion (fields : List (String × Json)) : Option (Option Version) :=
  match Json.objGet "jsonrpc" fields with
  | none => some none
  | some (.str s) => if s = "2.0" then some (some Version.V2) else none
  | some _ => none

/-- Deserialize a JSON value as a `jsonrpc_core::Error` object (requires
`code` and `message`, tolerates `data`). -/
def deserializeError (j : Json) : Option ErrorObj :=
  match j with
  | .obj fields =>
    if fields.all (fun kv => kv.1 = "code" ∨ kv.1 = "message" ∨ kv.1 = "data") then
      match Json.objGet "code" fields, Json.objGet "message" fields with
      | some (.num c), some (.str m) => some { code := c, message := m }
      | _, _ => none
    else none
  | _ => none

/-- Deserialize a JSON value as a `jsonrpc_core::Output`: an object that
is either a `Failure` (has `error`) or a `Success` (has `result`), with
no unknown fields (`deny_unknown_fields`) and a mandatory `id`. -/
def deserializeOutput (j : Json) : Option Output :=
  match j with
  | .obj fields =>
    match deserializeVersion fields, Json.objGet "id" fields with
    | some v, some rawId =>
      (match deserializeId rawId with
       | none => none
       | some i =>
         match Json.objGet "error" fields with
         | some rawErr =>
           if fields.all (fun kv => kv.1 = "jsonrpc" ∨ kv.1 = "error" ∨ kv.1 = "id") then
             (deserializeError rawErr).map (fun e => Output.Failure ⟨v, e, i⟩)
           else none
         | none =>
           match Json.objGet "result" fields with
           | some res =>
             if fields.all (fun kv => kv.1 = "jsonrpc" ∨ kv.1 = "result" ∨ kv.1 = "id") then
               some (Output.Success ⟨v, res, i⟩)
             else none
           | none => none)
    | _, _ => none
  | _ => none

/-- Deserialize a list of outputs for a batch response. -/
def deserializeOutputs : List Json → Option (List Output)
  | [] => some []
  | j :: rest =>
    match deserializeOutput j, deserializeOutputs rest with
    | some o, some os => some (o :: os)
    | _, _ => none

/-- Deserialize a JSON value as a `jsonrpc_core::Response` (untagged:
single output object or batch array). -/
def deserializeResponse (j : Json) : Option Response :=
  match j with
  | .arr elems => (deserializeOutputs elems).map Response.Batch
  | .obj fields => (deserializeOutput (.obj fields)).map Response.Single
  | _ => none

/-- Embedding of `jsonrpc_core::Response::from_json`: parse the string and
deserialize the resulting value; `none` stands for the serde error
carrying a message. -/
def Response.from_json (s : String) : Option Response :=
  (parseJson s).bind deserializeResponse

/-- Embedding of `str::parse::<u64>()` on the strings this client meets:
a non-empty all-digit string whose value is below `2 ^ 64` parses,
anything else fails. -/
def parse_u64 (s : String) : Option Nat :=
  match s.data with
  | [] => none
  | cs =>
    if cs.all Char.isDigit then
      let n := cs.foldl (fun acc c => acc * 10 + (c.toNat - 48)) 0
      if n < 2 ^ 64 then some n else none
    else none

/-- Embedding of `simple_rpc::RPCResponse`. -/
structure RPCResponse where
  id : Option Nat
  result : Json

/-- Embedding of `simple_rpc::RpcError`. -/
structure RpcError where
  id : Option Nat
  msg : String
  deriving DecidableEq

/-- Embedding of `simple_rpc::RPCSubscriber`: the `AtomicUsize` request
counter (a 32-bit machine word on the wasm32 target, held below
`2 ^ 32`) and the two `HashMap<u64, RPCHandler>` callback tables,
modelled as association lists with unique keys. -/
structure RPCSubscriber where
  id : Nat
  subscriber : List (Nat × RPCHandler)
  error_subscriber : List (Nat × RPCHandler)
  deriving DecidableEq

/-- Number of bits of `usize` on the `wasm32-unknown-unknown` target this
crate is built for. -/
def usizeBits : Nat := 32

/-- Embedding of `jsonrpc_core::Params`. -/
inductive Params where
  | None
  | Array (elems : List Json)
  | Map (fields : List (String × Json))

/-- Embedding of `jsonrpc_core::Call` restricted to the `MethodCall`
variant the client builds (version tag, method, params, numeric id). -/
structure Call where
  jsonrpc : Option Version
  method : String
  params : Params
  id : Id

namespace RPCSubscriber

/-- Embedding of `RPCSubscriber::new`. -/
def new : RPCSubscriber := ⟨0, [], []⟩

/-- Embedding of the three `build_*_request` helpers: all construct a
version-2 `MethodCall` with `Id::Num(id as u64)`. -/
def build_request (id : Nat) (method : String) (params : Params) : Call :=
  { jsonrpc := some Version.V2, method := method, params := params, id := Id.Num id }

/-- Embedding of `RPCSubscriber::prepare_request`: `fetch_add(1)` on the
wrapping 32-bit counter returns the old value, which becomes the request
id; the envelope is built from it. -/
def prepare_request (s : RPCSubscriber) (method : String) (params : Params) :
    (Nat × Call) × RPCSubscriber :=
  let id := s.id
  ((id, build_request id method params), { s with id := (s.id + 1) % 2 ^ usizeBits })

/-- Insert-or-replace on the handler table (`HashMap::insert`). -/
def insertHandler (key : Nat) (h : RPCHandler) : List (Nat × RPCHandler) → List (Nat × RPCHandler)
  | [] => [(key, h)]
  | (k, v) :: rest =>
    if k = key then (key, h) :: rest else (k, v) :: insertHandler key h rest

/-- Handler-table lookup (`HashMap::get`). -/
def findHandler (key : Nat) : List (Nat × RPCHandler) → Option RPCHandler
  | [] => none
  | (k, v) :: rest => if k = key then some v else findHandler key rest

/-- Embedding of `RPCSubscriber::set_handler`. -/
def set_handler (s : RPCSubscriber) (request_id : Nat) (handler : RPCHandler) : RPCSubscriber :=
  { s with subscriber := insertHandler request_id handler s.subscriber }

/-- Embedding of `RPCSubscriber::set_error_handler`. -/
def set_error_handler (s : RPCSubscriber) (request_id : Nat) (handler : RPCHandler) : RPCSubscriber :=
  { s with error_subscriber := insertHandler request_id handler s.error_subscriber }

/-- Embedding of `RPCSubscriber::get_handler` (a read-only `HashMap::get`;
the table is not modified). -/
def get_handler (s : RPCSubscriber) (request_id : Nat) : Option RPCHandler :=
  findHandler request_id s.subscriber

/-- Embedding of `RPCSubscriber::get_error_handler`. -/
def get_error_handler (s : RPCSubscriber) (request_id : Nat) : Option RPCHandler :=
  findHandler request_id s.error_subscriber

/-- Embedding of `RPCSubscriber::get_response`.  The outer `Except String`
records a Rust panic: on a string id that does not parse as `u64` the
source calls `str_id.parse::<u64>().unwrap()`, which panics.  A failed
`Response::from_json` becomes the serde-error `Err` branch (its message
abbreviated to a fixed tag). -/
def get_response (json : String) : Except String (Except RpcError RPCResponse) :=
  match Response.from_json json with
  | some (.Single o) =>
    (match o with
     | .Failure fail =>
       match fail.id with
       | .Num i => .ok (.error ⟨some i, fail.error.message⟩)
       | .Str str_id =>
         (match parse_u64 str_id with
          | some i => .ok (.error ⟨some i, fail.error.message⟩)
          | none => .error "called unwrap on an Err value: ParseIntError")
       | .Null => .ok (.error ⟨none, fail.error.message⟩)
     | .Success succ =>
       match succ.id with
       | .Num i => .ok (.ok ⟨some i, succ.result⟩)
       | .Str str_id =>
         (match parse_u64 str_id with
          | some i => .ok (.ok ⟨some i, succ.result⟩)
          | none => .error "called unwrap on an Err value: ParseIntError")
       | .Null => .ok (.ok ⟨none, succ.result⟩))
  | some (.Batch _) => .ok (.error ⟨none, "this is batch response"⟩)
  | none => .ok (.error ⟨none, "serde deserialize error"⟩)

end RPCSubscriber

/-! ## Reconnect policy (`src/factory.rs`) -/

/-- Embedding of `factory::ReconnectConfig`: the `is_reconnecting` flag and
whether the `retry_closure` cell currently holds a closure. -/
structure ReconnectConfig where
  is_reconnecting : Bool
  has_retry_cb : Bool
  deriving DecidableEq

namespace ReconnectConfig

/-- Embedding of `ReconnectConfig::default`. -/
def default : ReconnectConfig := ⟨false, false⟩

/-- Embedding of `ReconnectConfig::reset`: `is_reconnecting = false`. -/
def reset (c : ReconnectConfig) : ReconnectConfig := { c with is_reconnecting := false }

/-- Embedding of `ReconnectConfig::set_retry_cb`: stores a retry closure. -/
def set_retry_cb (c : ReconnectConfig) : ReconnectConfig := { c with has_retry_cb := true }

end ReconnectConfig

/-! ## Message routing (`src/core.rs`) -/

/-- Effects of routing one inbound frame: emitter callback invocations,
pending-RPC-table lookups, RPC handler invocations, and console logs. -/
structure Effects where
  invoked : List (Callback × Payload)
  rpcLookups : List Nat
  rpcInvoked : List (RPCHandler × String)
  logs : List String
  deriving DecidableEq

/-- Embedding of `WsCore::process_rpc_message` (the body guarded by the
always-satisfied `Some(emitter)` / `Some(rpc_subscriber)` checks —
`WsFactory::new` installs both).  The `rpc_subscriber` is borrowed
mutably in the source but only read through `get_handler` /
`get_error_handler`; the returned state is what the borrow holds
afterwards. -/
def process_rpc_message (payload : String) (sub : RPCSubscriber) :
    Except String (Effects × RPCSubscriber) :=
  match RPCSubscriber.get_response payload with
  | .error p => .error p
  | .ok (.ok rpc_response) =>
    (match rpc_response.id with
     | some i =>
       (match sub.get_handler i with
        | some h =>
          .ok ({ invoked := [], rpcLookups := [i],
                 rpcInvoked := [(h, rpc_response.result.render)], logs := [] }, sub)
        | none => .ok ({ invoked := [], rpcLookups := [i], rpcInvoked := [], logs := [] }, sub))
     | none =>
       .ok ({ invoked := [], rpcLookups := [], rpcInvoked := [],
              logs := [ "this is notification"] }, sub))
  | .ok (.error err) =>
    match err.id with
    | some i =>
      (match sub.get_error_handler i with
       | some h =>
         .ok ({ invoked := [], rpcLookups := [i],
                rpcInvoked := [(h, err.msg)], logs := [] }, sub)
       | none => .ok ({ invoked := [], rpcLookups := [i], rpcInvoked := [], logs := [] }, sub))
    | none =>
      .ok ({ invoked := [], rpcLookups := [], rpcInvoked := [],
             logs := [ "this is notification"] }, sub)

/-- Characters of a string before its first `:`, or `none` when there is
no colon — the embedding of `payload.find(":")` plus the slice
`&payload[..end_bytes]`. -/
def findColon : List Char → Option (List Char)
  | [] => none
  | c :: cs => if c = ':' then some [] else (findColon cs).map (fun pre => c :: pre)

/-- Embedding of `WsCore::process_text_message` (the body guarded by the
always-satisfied `Some(emitter)` check).  `serde_json::from_str(...)
.expect(...)` (message: cant deserialize, apostrophe omitted here) and
`payload.find(":").unwrap()` are Rust panics, modelled as
`Except.error`. -/
def process_text_message (payload : String) (em : Emitter) (sub : RPCSubscriber) :
    Except String (Effects × RPCSubscriber) :=
  match parseJson payload with
  | none => .error "cant deserialize"
  | some response =>
    match findColon payload.data with
    | none => .error "called unwrap on a None value"
    | some pre =>
      let handler_name := String.mk (pre.filter (fun c => ¬(c = lbrace ∨ c = '"')))
      let data := response.index handler_name
      if handler_name = "jsonrpc" then
        process_rpc_message payload sub
      else
        let out := em.emit handler_name (.Data data.render)
        .ok ({ invoked := out.invoked, rpcLookups := [], rpcInvoked := [], logs := out.logs }, sub)

/-! ## Lifecycle callbacks (`src/core.rs`) -/

/-- The heartbeat frame `serde_json::to_string(&Ping { ping: "ping" })`. -/
def pingFrame : String := String.mk [lbrace] ++ "\"ping\":\"ping\"" ++ String.mk [rbrace]

/-- The subscribe frame `serde_json::to_string(&Subscribe { subscribe:
topic })` for a topic. -/
def subscribeFrame (topic : String) : String :=
  String.mk [lbrace] ++ "\"subscribe\":\"" ++ topic ++ "\"" ++ String.mk [rbrace]

/-- Observable effects of one run of the `onopen` closure, in program
order: updated reconnect state, frames sent over the transport, repeating
timers scheduled (periods in ms), whether the user open callback ran, and
the local emitter dispatch. -/
structure OpenOut where
  reconnect : Option ReconnectConfig
  sends : List String
  intervalsScheduled : List Nat
  userOpenInvoked : Bool
  emitterOut : EmitOut
  deriving DecidableEq

/-- Embedding of `WsCore::build_onopen` followed by one invocation of the
built closure.  `none` models the source returning no closure (when both
`on_open` and `reconnect` are absent).  `keysEnum` stands for the list
returned by `Emitter::get_handlers_names`, whose `HashMap` key order is
unspecified; callers constrain it to a permutation of the registered
keys.  The closure body in order: reset the reconnect config, invoke the
user open callback, send one ping frame, schedule the 10-second repeating
pinger, send one subscribe frame per enumerated key, emit a local "open"
event. -/
def build_onopen_run (hasOnOpen : Bool) (reconnect : Option ReconnectConfig)
    (em : Option Emitter) (keysEnum : List String) : Option OpenOut :=
  if ¬hasOnOpen ∧ reconnect.isNone then none
  else some
    { reconnect := reconnect.map ReconnectConfig.reset
      sends :=
        pingFrame ::
          (match em with
           | some _ => keysEnum.map subscribeFrame
           | none => [])
      intervalsScheduled := [10000]
      userOpenInvoked := hasOnOpen
      emitterOut :=
        match em with
        | some e => e.emit "open" (.Data "open")
        | none => ⟨[], []⟩ }

/-- Observable effects of one run of the `onclose` closure, in program
order: updated reconnect state (a fresh retry closure stored when
reconnection is enabled), one-shot timers scheduled (delays in ms), the
local emitter dispatch, whether the pinger interval was cancelled, and
whether the user close callback ran. -/
structure CloseOut where
  reconnect : Option ReconnectConfig
  timeoutsScheduled : List Nat
  emitterOut : EmitOut
  pingCancelled : Bool
  userCloseInvoked : Bool
  deriving DecidableEq

/-- Embedding of `WsCore::build_onclose` followed by one invocation of the
built closure.  When reconnection is enabled the closure builds a retry
closure, schedules it once via `setTimeout(..., 1000)`, and stores it in
the config — unconditionally, the `is_closing` check being commented
out in the source. -/
def build_onclose_run (hasOnClose : Bool) (reconnect : Option ReconnectConfig)
    (em : Option Emitter) : Option CloseOut :=
  if ¬hasOnClose ∧ reconnect.isNone then none
  else some
    { reconnect := reconnect.map ReconnectConfig.set_retry_cb
      timeoutsScheduled := if reconnect.isSome then [1000] else []
      emitterOut :=
        (match em with
         | some e => e.emit "close" (.Data "close")
         | none => ⟨[], []⟩)
      pingCancelled := true
      userCloseInvoked := hasOnClose }

/-- Observable effects of one run of the retry closure built by
`WsCore::build_retry_closure`. -/
structure RetryOut where
  reconnect : Option ReconnectConfig
  timeoutsScheduled : List Nat
  websocketReplaced : Bool
  deriving DecidableEq

/-- Embedding of one invocation of the closure from
`WsCore::build_retry_closure`, with `constructOk` the outcome of
`WsCore::build_new_websocket`.  On failure it builds a fresh retry
closure, schedules it once via `setTimeout(..., 1000)` and stores it
(`factory.reconnect.clone().unwrap()` panics if reconnection is
disabled, which cannot arise since only `onclose` with reconnection
enabled schedules this closure); on success it replaces the websocket
handle and re-wires the lifecycle callbacks (no frame is sent and no
timer scheduled by the wiring itself). -/
def retry_run (constructOk : Bool) (reconnect : Option ReconnectConfig) :
    Except String RetryOut :=
  if constructOk then
    .ok { reconnect := reconnect, timeoutsScheduled := [], websocketReplaced := true }
  else
    match reconnect with
    | some cfg =>
      .ok { reconnect := some cfg.set_retry_cb, timeoutsScheduled := [1000],
            websocketReplaced := false }
    | none => .error "called unwrap on a None value"

/-! ## Client facade (`src/lib.rs`) -/

/-- Serialization of `jsonrpc_core::Params` (untagged: absent params
serialize as `null`). -/
def serializeParams : Params → Json
  | .None => Json.null
  | .Array elems => Json.arr elems
  | .Map fields => Json.obj fields

/-- Serialization of a `jsonrpc_core::Id`. -/
def serializeId : Id → Json
  | .Null => Json.null
  | .Num n => Json.num (n : Int)
  | .Str s => Json.str s

/-- Embedding of `serde_json::to_string(&raw_request)` on the
`Call::MethodCall` envelope: the struct serializer emits the fields in
declaration order (`jsonrpc`, `method`, `params`, `id`), the version tag
omitted when absent. -/
def serializeCall (c : Call) : String :=
  let versionFields : List (String × Json) :=
    match c.jsonrpc with
    | some Version.V2 => [( "jsonrpc", Json.str "2.0")]
    | none => []
  Json.render (Json.obj (versionFields ++
    [( "method", Json.str c.method), ( "params", serializeParams c.params),
     ( "id", serializeId c.id)]))

/-- Events of one facade RPC send, in program order: handler
registrations into the pending table, then the transport send attempt
with its outcome. -/
inductive RpcEv where
  | registered (id : Nat)
  | registeredErr (id : Nat)
  | sendAttempt (frame : String) (ok : Bool)
  deriving DecidableEq

/-- The facade state the RPC send path touches. -/
structure WebsocketM where
  rpc_subscriber : Option RPCSubscriber
  deriving DecidableEq

/-- Embedding of `Websocket::prepare_rpc_request`: when an RPC subscriber
is configured, allocate the next request id, register the success and
error handlers under it, and return the serialized envelope; otherwise
return `None` and do nothing. -/
def prepare_rpc_request (w : WebsocketM) (method : String) (params : Params)
    (callback error_callback : RPCHandler) :
    (Option String × WebsocketM) × List RpcEv :=
  match w.rpc_subscriber with
  | some sub =>
    let step := sub.prepare_request method params
    let request_id := step.1.1
    let raw_request := step.1.2
    let sub2 := (step.2.set_handler request_id callback).set_error_handler
      request_id error_callback
    ((some (serializeCall raw_request), { rpc_subscriber := some sub2 }),
      [.registered request_id, .registeredErr request_id])
  | none => ((none, w), [])

/-- Embedding of `Websocket::send_text_rpc`: prepare and register, then
attempt the transport send; the `Result` of the send is discarded by
`match ... { Ok(_) => {}, Err(_) => {} }`, so the caller observes no
error either way.  `sendOk` is the transport outcome. -/
def send_text_rpc (w : WebsocketM) (method : String) (params : Params)
    (callback error_callback : RPCHandler) (sendOk : Bool) :
    WebsocketM × List RpcEv :=
  match prepare_rpc_request w method params callback error_callback with
  | ((some rpc_request, w1), evs) => (w1, evs ++ [.sendAttempt rpc_request sendOk])
  | ((none, w1), evs) => (w1, evs)

/-- Embedding of `Websocket::send_binary_rpc`: identical to the text
variant except the frame travels as `Vec::from(rpc_request)` — the same
bytes, so the same observable events. -/
def send_binary_rpc (w : WebsocketM) (method : String) (params : Params)
    (callback error_callback : RPCHandler) (sendOk : Bool) :
    WebsocketM × List RpcEv :=
  send_text_rpc w method params callback error_callback sendOk

/-! ## Request-id traces across reconnects -/

/-- One client-lifetime operation relevant to the request-id counter: a
`prepare_request` call, or a reconnect (the retry path rebuilds the
websocket, pinger and lifecycle closures but never touches
`factory.rpc_subscriber`, so the counter survives it). -/
inductive ClientOp where
  | prepare
  | reconnect
  deriving DecidableEq

/-- Run a sequence of client operations against the request-id counter
(starting value `c`), collecting the request ids returned by the
`prepare_request` calls in order, together with the final counter.  The
`prepare` case is exactly the counter effect of
`RPCSubscriber.prepare_request`; `reconnect` leaves the counter
unchanged. -/
def run_ops : List ClientOp → Nat → List Nat × Nat
  | [], c => ([], c)
  | .prepare :: ops, c =>
    let step := run_ops ops ((c + 1) % 2 ^ usizeBits)
    (c :: step.1, step.2)
  | .reconnect :: ops, c => run_ops ops c

/-- Number of `prepare` operations in a client trace. -/
def countPrepares : List ClientOp → Nat
  | [] => 0
  | .prepare :: ops => countPrepares ops + 1
  | .reconnect :: ops => countPrepares ops

/-! ## Concrete frames used as test vectors -/

/-- A success envelope with numeric id `42`. -/
def envelopeNumId42 : String :=
  String.mk [lbrace] ++ "\"jsonrpc\":\"2.0\",\"result\":7,\"id\":42" ++ String.mk [rbrace]

/-- A success envelope with the string id `"42"`. -/
def envelopeStrId42 : String :=
  String.mk [lbrace] ++ "\"jsonrpc\":\"2.0\",\"result\":7,\"id\":\"42\"" ++ String.mk [rbrace]

/-- A success envelope with the non-numeric string id `"abc"`. -/
def envelopeStrIdAbc : String :=
  String.mk [lbrace] ++ "\"jsonrpc\":\"2.0\",\"result\":7,\"id\":\"abc\"" ++ String.mk [rbrace]

/-- A success envelope with `id: null`. -/
def envelopeNullId : String :=
  String.mk [lbrace] ++ "\"jsonrpc\":\"2.0\",\"result\":7,\"id\":null" ++ String.mk [rbrace]

/-- A success envelope with no `id` field at all. -/
def envelopeNoId : String :=
  String.mk [lbrace] ++ "\"jsonrpc\":\"2.0\",\"result\":7" ++ String.mk [rbrace]

/-- A success envelope with numeric id `0` and result `7`. -/
def envelopeOkId0 : String :=
  String.mk [lbrace] ++ "\"jsonrpc\":\"2.0\",\"result\":7,\"id\":0" ++ String.mk [rbrace]

/-- A failure envelope with numeric id `0` and error message `"boom"`. -/
def envelopeFailId0 : String :=
  String.mk [lbrace] ++ "\"jsonrpc\":\"2.0\",\"error\":" ++ String.mk [lbrace] ++
    "\"code\":-32000,\"message\":\"boom\"" ++ String.mk [rbrace] ++ ",\"id\":0" ++
    String.mk [rbrace]

/-! ## Helper lemmas on the handler tables -/

/-- Looking up a key right after inserting it yields the inserted handler. -/
theorem findHandler_insertHandler_self (k : Nat) (h : RPCHandler) :
    ∀ l : List (Nat × RPCHandler),
      RPCSubscriber.findHandler k (RPCSubscriber.insertHandler k h l) = some h
  | [] => by simp [RPCSubscriber.insertHandler, RPCSubscriber.findHandler]
  | (a, b) :: rest => by
    by_cases hak : a = k
    · simp [RPCSubscriber.insertHandler, RPCSubscriber.findHandler, hak]
    · simp [RPCSubscriber.insertHandler, RPCSubscriber.findHandler, hak,
        findHandler_insertHandler_self k h rest]

/-- Looking up a topic right after registering it yields the registered
callback. -/
theorem findCb_insertReplace_self (k : String) (cb : Callback) :
    ∀ l : List (String × Callback),
      Emitter.findCb k (Emitter.insertReplace k cb l) = some cb
  | [] => by simp [Emitter.insertReplace, Emitter.findCb]
  | (a, b) :: rest => by
    by_cases hak : a = k
    · simp [Emitter.insertReplace, Emitter.findCb, hak]
    · simp [Emitter.insertReplace, Emitter.findCb, hak,
        findCb_insertReplace_self k cb rest]

/-! ## Claims -/

/-- C1: the claim says a non-JSON text payload fails the message with a
local "error" event, the frame is dropped and processing continues, never
fatally.  The code instead panics: `serde_json::from_str(payload)
.expect(...)` aborts `process_text_message` on the first malformed frame,
and no "error" event is emitted even when an "error" listener is
registered.  This theorem evaluates the embedded code at the failing
input `"hello"`. -/
theorem c1_malformed_json_panics :
    process_text_message "hello" Emitter.new RPCSubscriber.new = .error "cant deserialize"
    ∧ process_text_message "hello" (Emitter.new.on "error" 9) RPCSubscriber.new
        = .error "cant deserialize" :=
  ⟨rfl, rfl⟩

/-- C2: a string id `"42"` resolves identically to the numeric id `42`
(first two conjuncts, as the claim states), but a non-numeric string id
`"abc"` makes `get_response` panic on `str_id.parse::<u64>().unwrap()`
instead of failing with a malformed-response error (third conjunct,
contradicting the claim). -/
theorem c2_string_id_resolution :
    RPCSubscriber.get_response envelopeStrId42 = RPCSubscriber.get_response envelopeNumId42
    ∧ RPCSubscriber.get_response envelopeStrId42 = .ok (.ok ⟨some 42, Json.num 7⟩)
    ∧ RPCSubscriber.get_response envelopeStrIdAbc
        = .error "called unwrap on an Err value: ParseIntError" :=
  ⟨rfl, rfl, rfl⟩

/-- C5: with reconnection enabled, one transport close schedules exactly
one retry task with the fixed 1000 ms delay; a retry whose transport
construction fails synchronously schedules exactly one new retry with the
same delay; a retry whose construction succeeds replaces the websocket
without scheduling, and the subsequent open resets the reconnect policy
state to idle (`is_reconnecting = false`). -/
theorem c5_reconnect_schedule (cfg : ReconnectConfig) (em : Emitter)
    (hasOnClose hasOnOpen : Bool) (keysEnum : List String) :
    (∃ co : CloseOut, build_onclose_run hasOnClose (some cfg) (some em) = some co
      ∧ co.timeoutsScheduled = [1000])
    ∧ (∃ ro : RetryOut, retry_run false (some cfg) = .ok ro
      ∧ ro.timeoutsScheduled = [1000])
    ∧ retry_run true (some cfg) = .ok ⟨some cfg, [], true⟩
    ∧ (∃ oo : OpenOut, build_onopen_run hasOnOpen (some cfg) (some em) keysEnum = some oo
      ∧ oo.reconnect = some cfg.reset ∧ cfg.reset.is_reconnecting = false) := by
  refine ⟨⟨{ reconnect := some cfg.set_retry_cb, timeoutsScheduled := [1000],
             emitterOut := em.emit "close" (.Data "close"), pingCancelled := true,
             userCloseInvoked := hasOnClose }, ?_, rfl⟩,
          ⟨{ reconnect := some cfg.set_retry_cb, timeoutsScheduled := [1000],
             websocketReplaced := false }, ?_, rfl⟩, ?_,
          ⟨{ reconnect := some cfg.reset, sends := pingFrame :: keysEnum.map subscribeFrame,
             intervalsScheduled := [10000], userOpenInvoked := hasOnOpen,
             emitterOut := em.emit "open" (.Data "open") }, ?_, rfl, rfl⟩⟩
  · simp [build_onclose_run]
  · simp [retry_run]
  · simp [retry_run]
  · simp [build_onopen_run]

/-- C7: a callback registered for a topic is invoked exactly once with the
emitted payload; re-registering a topic replaces the previous callback;
emitting on an unregistered topic invokes nothing, logs a "handler not
found" diagnostic, and returns without error. -/
theorem c7_emitter_contract (e : Emitter) (t : String) (cb cb2 : Callback) (p : Payload) :
    (e.on t cb).emit t p = ⟨[(cb, p)], []⟩
    ∧ ((e.on t cb).on t cb2).emit t p = ⟨[(cb2, p)], []⟩
    ∧ (Emitter.findCb t e.handlers = none →
        e.emit t p = ⟨[], [ "handler with name: " ++ t ++ " not found"]⟩) := by
  refine ⟨?_, ?_, fun h => ?_⟩
  · simp [Emitter.emit, Emitter.on, findCb_insertReplace_self]
  · simp [Emitter.emit, Emitter.on, findCb_insertReplace_self]
  · simp [Emitter.emit, h]

/-- C7 witness: the contract evaluated on a fresh emitter with topic
"trades", callbacks 1 and 2, payload "x", and the unregistered topic
"orders". -/
theorem c7_emitter_contract_witness :
    (Emitter.new.on "trades" 1).emit "trades" (.Data "x") = ⟨[(1, .Data "x")], []⟩
    ∧ ((Emitter.new.on "trades" 1).on "trades" 2).emit "trades" (.Data "x")
        = ⟨[(2, .Data "x")], []⟩
    ∧ Emitter.new.emit "orders" (.Data "x")
        = ⟨[], [ "handler with name: " ++ "orders" ++ " not found"]⟩ :=
  ⟨(c7_emitter_contract Emitter.new "trades" 1 2 (.Data "x")).1,
   (c7_emitter_contract Emitter.new "trades" 1 2 (.Data "x")).2.1,
   (c7_emitter_contract Emitter.new "orders" 1 2 (.Data "x")).2.2 rfl⟩

/-- Closed form for the ids a trace returns: starting from counter `c`
(below the wrap), the `k`-th prepared request gets id `(c + k)` modulo
the 32-bit wrap, independently of interleaved reconnects. -/
theorem run_ops_ids (ops : List ClientOp) : ∀ c : Nat, c < 2 ^ usizeBits →
    (run_ops ops c).1
      = (List.range (countPrepares ops)).map (fun k => (c + k) % 2 ^ usizeBits) := by
  induction ops with
  | nil => intro c hc; simp [run_ops, countPrepares]
  | cons op ops ih =>
    intro c hc
    cases op with
    | prepare =>
      simp only [run_ops, countPrepares]
      rw [ih ((c + 1) % 2 ^ usizeBits) (Nat.mod_lt _ (by positivity))]
      rw [List.range_succ_eq_map]
      simp only [List.map_cons, List.map_map]
      refine congrArg₂ List.cons ?_ ?_
      · exact (Nat.mod_eq_of_lt hc).symm.trans (by rw [Nat.add_zero])
      · refine List.map_congr_left (fun k _ => ?_)
        simp only [Function.comp]
        rw [Nat.mod_add_mod]
        exact congrArg (fun a => a % 2 ^ usizeBits) (by omega)
    | reconnect =>
      simp only [run_ops, countPrepares]
      exact ih c hc

/-- Replicating `prepare` yields that many prepares. -/
theorem countPrepares_replicate (n : Nat) :
    countPrepares (List.replicate n ClientOp.prepare) = n := by
  induction n with
  | zero => rfl
  | succ n ih => simp [List.replicate_succ, countPrepares, ih]

/-- A trace of `2 ^ 32 + 1` consecutive `prepare_request` calls. -/
def bigTrace : List ClientOp := List.replicate (2 ^ usizeBits + 1) ClientOp.prepare

/-- C3 counterexample: over the trace of `2 ^ 32 + 1` `prepare_request`
calls the returned ids are neither strictly increasing nor free of
repeats — the wrapping 32-bit `usize` counter returns id `0` both for
the first call and for call number `2 ^ 32`. -/
theorem c3_counterexample :
    ¬ ((run_ops bigTrace 0).1.Pairwise (· < ·))
    ∧ ¬ ((run_ops bigTrace 0).1.Nodup) := by
  have hids : (run_ops bigTrace 0).1
      = (List.range (2 ^ usizeBits + 1)).map (fun k => k % 2 ^ usizeBits) := by
    rw [run_ops_ids bigTrace 0 (by positivity)]
    rw [bigTrace, countPrepares_replicate]
    exact List.map_congr_left (fun k _ => by rw [Nat.zero_add])
  have hlen : ((List.range (2 ^ usizeBits + 1)).map
      (fun k => k % 2 ^ usizeBits)).length = 2 ^ usizeBits + 1 := by
    simp
  constructor
  · intro hpw
    rw [hids, List.pairwise_iff_getElem] at hpw
    have h := hpw 0 (2 ^ usizeBits)
      (by simp only [List.length_map, List.length_range]; exact Nat.succ_pos _)
      (by simp only [List.length_map, List.length_range]; exact Nat.lt_succ_self _)
      (by positivity)
    simp only [List.getElem_map, List.getElem_range] at h
    rw [Nat.zero_mod, Nat.mod_self] at h
    exact absurd h (lt_irrefl 0)
  · intro hnd
    rw [hids, List.Nodup, List.pairwise_iff_getElem] at hnd
    have h := hnd 0 (2 ^ usizeBits)
      (by simp only [List.length_map, List.length_range]; exact Nat.succ_pos _)
      (by simp only [List.length_map, List.length_range]; exact Nat.lt_succ_self _)
      (by positivity)
    simp only [List.getElem_map, List.getElem_range] at h
    rw [Nat.zero_mod, Nat.mod_self] at h
    exact h rfl

/-- C3 amended: as long as at most `2 ^ 32` requests are prepared in the
lifetime of the client (the 32-bit `usize` counter has not wrapped), the
returned request ids are strictly increasing and never repeat, across any
interleaving of reconnects — a reconnect never touches the counter, and
each `prepare_request` returns the current counter and advances it by
one. -/
theorem c3_request_ids_strictly_increasing (ops : List ClientOp)
    (h : countPrepares ops ≤ 2 ^ usizeBits) :
    (run_ops ops 0).1.Pairwise (· < ·)
    ∧ (∀ (sub : RPCSubscriber) (m : String) (prm : Params),
        (sub.prepare_request m prm).1.1 = sub.id
        ∧ (sub.prepare_request m prm).2.id = (sub.id + 1) % 2 ^ usizeBits) := by
  constructor
  · rw [run_ops_ids ops 0 (by positivity)]
    have heq : ∀ k ∈ List.range (countPrepares ops), (0 + k) % 2 ^ usizeBits = k := by
      intro k hk
      rw [List.mem_range] at hk
      rw [Nat.zero_add, Nat.mod_eq_of_lt (lt_of_lt_of_le hk h)]
    rw [List.map_congr_left heq]
    simpa using List.pairwise_lt_range (countPrepares ops)
  · intro sub m prm
    exact ⟨rfl, rfl⟩

/-- C3 witness: the strict-increase property on the concrete trace
`[prepare, reconnect, prepare]`. -/
theorem c3_request_ids_strictly_increasing_witness :
    (run_ops [ClientOp.prepare, ClientOp.reconnect, ClientOp.prepare] 0).1.Pairwise (· < ·) :=
  (c3_request_ids_strictly_increasing
    [ClientOp.prepare, ClientOp.reconnect, ClientOp.prepare] (by decide)).1

/-- The emitter of the C6 scenario: topics registered in the order
`"trades"` then `"orders"`. -/
def tradesOrdersEmitter : Emitter := (Emitter.new.on "trades" 1).on "orders" 2

/-- C6 counterexample: `get_handlers_names` reads the keys of a Rust
`HashMap`, whose iteration order is unspecified — any permutation of the
registered topics is a legal enumeration.  Under the legal enumeration
`["orders", "trades"]` of the registry registered as `["trades",
"orders"]`, the subscribe frames are sent out of registration order, so
the claimed registration-order guarantee fails. -/
theorem c6_counterexample :
    [ "orders", "trades"].Perm tradesOrdersEmitter.keys
    ∧ (∃ oo : OpenOut,
        build_onopen_run false (some ReconnectConfig.default) (some tradesOrdersEmitter)
          [ "orders", "trades"] = some oo
        ∧ oo.sends ≠ [pingFrame, subscribeFrame "trades", subscribeFrame "orders"]) := by
  constructor
  · decide
  · refine ⟨{ reconnect := some ReconnectConfig.default.reset,
              sends := pingFrame :: [ "orders", "trades"].map subscribeFrame,
              intervalsScheduled := [10000], userOpenInvoked := false,
              emitterOut := tradesOrdersEmitter.emit "open" (.Data "open") }, ?_, ?_⟩
    · simp [build_onopen_run]
    · decide

/-- C6 amended: on open with a registered topic registry, exactly one
ping frame is sent first, followed by exactly one subscribe frame per
registered topic and nothing else — but the subscribe frames follow the
unspecified `HashMap` key-enumeration order (an arbitrary permutation of
the registered topics), not necessarily registration order. -/
theorem c6_open_sends_ping_then_subscribes (em : Emitter) (cfg : ReconnectConfig)
    (hasOnOpen : Bool) (keysEnum : List String) (hperm : keysEnum.Perm em.keys) :
    ∃ oo : OpenOut,
      build_onopen_run hasOnOpen (some cfg) (some em) keysEnum = some oo
      ∧ oo.sends = pingFrame :: keysEnum.map subscribeFrame
      ∧ ∀ t : String, keysEnum.count t = em.keys.count t := by
  refine ⟨{ reconnect := some cfg.reset, sends := pingFrame :: keysEnum.map subscribeFrame,
            intervalsScheduled := [10000], userOpenInvoked := hasOnOpen,
            emitterOut := em.emit "open" (.Data "open") }, ?_, rfl, fun t => hperm.count_eq t⟩
  simp [build_onopen_run]

/-- C6 amended witness: the scenario with topics `["trades", "orders"]`
under the identity enumeration. -/
theorem c6_open_sends_ping_then_subscribes_witness :
    ∃ oo : OpenOut,
      build_onopen_run true (some ReconnectConfig.default) (some tradesOrdersEmitter)
        [ "trades", "orders"] = some oo
      ∧ oo.sends = pingFrame :: [ "trades", "orders"].map subscribeFrame
      ∧ ∀ t : String, [ "trades", "orders"].count t = tradesOrdersEmitter.keys.count t :=
  c6_open_sends_ping_then_subscribes tradesOrdersEmitter ReconnectConfig.default true
    [ "trades", "orders"] (by decide)

/-- Dispatch of a parsed success envelope with a numeric id. -/
theorem get_response_of_success (s : String) (v : Option Version) (r : Json) (i : Nat)
    (h : Response.from_json s = some (.Single (.Success ⟨v, r, Id.Num i⟩))) :
    RPCSubscriber.get_response s = .ok (.ok ⟨some i, r⟩) := by
  unfold RPCSubscriber.get_response
  rw [h]

/-- Dispatch of a parsed failure envelope with a numeric id. -/
theorem get_response_of_failure (s : String) (v : Option Version) (e : ErrorObj) (i : Nat)
    (h : Response.from_json s = some (.Single (.Failure ⟨v, e, Id.Num i⟩))) :
    RPCSubscriber.get_response s = .ok (.error ⟨some i, e.message⟩) := by
  unfold RPCSubscriber.get_response
  rw [h]

/-- Dispatch of a parsed success envelope with a null id. -/
theorem get_response_of_success_null (s : String) (v : Option Version) (r : Json)
    (h : Response.from_json s = some (.Single (.Success ⟨v, r, Id.Null⟩))) :
    RPCSubscriber.get_response s = .ok (.ok ⟨none, r⟩) := by
  unfold RPCSubscriber.get_response
  rw [h]

/-- Dispatch of a parsed failure envelope with a null id. -/
theorem get_response_of_failure_null (s : String) (v : Option Version) (e : ErrorObj)
    (h : Response.from_json s = some (.Single (.Failure ⟨v, e, Id.Null⟩))) :
    RPCSubscriber.get_response s = .ok (.error ⟨none, e.message⟩) := by
  unfold RPCSubscriber.get_response
  rw [h]

/-- A payload the serde layer rejects surfaces as the id-less error
branch. -/
theorem get_response_of_parse_error (s : String)
    (h : Response.from_json s = none) :
    RPCSubscriber.get_response s = .ok (.error ⟨none, "serde deserialize error"⟩) := by
  unfold RPCSubscriber.get_response
  rw [h]

/-- A success envelope whose id has a registered handler invokes exactly
that handler with the stringified result, leaving the table unchanged. -/
theorem process_rpc_success_invokes (s : String) (sub : RPCSubscriber)
    (v : Option Version) (r : Json) (i : Nat) (cb : RPCHandler)
    (henv : Response.from_json s = some (.Single (.Success ⟨v, r, Id.Num i⟩)))
    (hreg : sub.get_handler i = some cb) :
    process_rpc_message s sub = .ok (⟨[], [i], [(cb, r.render)], []⟩, sub) := by
  unfold process_rpc_message
  rw [get_response_of_success s v r i henv]
  simp [hreg]

/-- A failure envelope whose id has a registered error handler invokes
exactly that handler with the error message, leaving the table
unchanged. -/
theorem process_rpc_failure_invokes (s : String) (sub : RPCSubscriber)
    (v : Option Version) (e : ErrorObj) (i : Nat) (cb : RPCHandler)
    (henv : Response.from_json s = some (.Single (.Failure ⟨v, e, Id.Num i⟩)))
    (hreg : sub.get_error_handler i = some cb) :
    process_rpc_message s sub = .ok (⟨[], [i], [(cb, e.message)], []⟩, sub) := by
  unfold process_rpc_message
  rw [get_response_of_failure s v e i henv]
  simp [hreg]

/-- C4: after `prepare_request` allocates id `i` and both handlers are
registered under it, dispatching a synthetic success envelope carrying
`Id.Num i` invokes the success callback exactly once with the stringified
result, and dispatching a synthetic failure envelope carrying `Id.Num i`
invokes the error callback exactly once with the error message. -/
theorem c4_rpc_round_trip (sub sub2 : RPCSubscriber) (m : String) (prm : Params)
    (cb errCb : RPCHandler) (i : Nat) (r : Json) (emsg : String) (code : Int)
    (v w : Option Version) (sOk sFail : String)
    (_hi : i = (sub.prepare_request m prm).1.1)
    (hsub2 : sub2 = ((sub.prepare_request m prm).2.set_handler i cb).set_error_handler i errCb)
    (hOk : Response.from_json sOk = some (.Single (.Success ⟨v, r, Id.Num i⟩)))
    (hFail : Response.from_json sFail = some (.Single (.Failure ⟨w, ⟨code, emsg⟩, Id.Num i⟩))) :
    process_rpc_message sOk sub2 = .ok (⟨[], [i], [(cb, r.render)], []⟩, sub2)
    ∧ process_rpc_message sFail sub2 = .ok (⟨[], [i], [(errCb, emsg)], []⟩, sub2) := by
  have hreg : sub2.get_handler i = some cb := by
    rw [hsub2]
    simp [RPCSubscriber.get_handler, RPCSubscriber.set_handler,
      RPCSubscriber.set_error_handler, findHandler_insertHandler_self]
  have hregErr : sub2.get_error_handler i = some errCb := by
    rw [hsub2]
    simp [RPCSubscriber.get_error_handler, RPCSubscriber.set_handler,
      RPCSubscriber.set_error_handler, findHandler_insertHandler_self]
  exact ⟨process_rpc_success_invokes sOk sub2 v r i cb hOk hreg,
    process_rpc_failure_invokes sFail sub2 w ⟨code, emsg⟩ i errCb hFail hregErr⟩

/-- The subscriber state of the C4 witness: a fresh client after one
`prepare_request` (id 0) with success handler 5 and error handler 6. -/
def subAfterC4 : RPCSubscriber :=
  ((RPCSubscriber.new.prepare_request "m" Params.None).2.set_handler 0 5).set_error_handler 0 6

/-- C4 witness: the round trip evaluated on a fresh client, the success
envelope `envelopeOkId0` and the failure envelope `envelopeFailId0`. -/
theorem c4_rpc_round_trip_witness :
    process_rpc_message envelopeOkId0 subAfterC4
      = .ok (⟨[], [0], [(5, Json.render (Json.num 7))], []⟩, subAfterC4)
    ∧ process_rpc_message envelopeFailId0 subAfterC4
      = .ok (⟨[], [0], [(6, "boom")], []⟩, subAfterC4) :=
  c4_rpc_round_trip RPCSubscriber.new subAfterC4 "m" Params.None 5 6 0 (Json.num 7)
    "boom" (-32000) (some Version.V2) (some Version.V2) envelopeOkId0 envelopeFailId0
    rfl rfl rfl rfl

/-- C8: an envelope whose id is null — or whose shape the serde layer
rejects, which covers an absent id field — invokes no callback, performs
no handler-table lookup, raises no error, and is only logged as a
notification; the table is untouched. -/
theorem c8_null_or_absent_id_is_notification (s : String) (sub : RPCSubscriber)
    (h : (∃ v r, Response.from_json s = some (.Single (.Success ⟨v, r, Id.Null⟩)))
       ∨ (∃ v e, Response.from_json s = some (.Single (.Failure ⟨v, e, Id.Null⟩)))
       ∨ Response.from_json s = none) :
    process_rpc_message s sub = .ok (⟨[], [], [], [ "this is notification"]⟩, sub) := by
  rcases h with ⟨v, r, henv⟩ | ⟨v, e, henv⟩ | henv
  · unfold process_rpc_message
    rw [get_response_of_success_null s v r henv]
  · unfold process_rpc_message
    rw [get_response_of_failure_null s v e henv]
  · unfold process_rpc_message
    rw [get_response_of_parse_error s henv]

/-- C8 witness: the null-id envelope `envelopeNullId` (and, via the serde
branch, the id-less envelope `envelopeNoId`) on a fresh client. -/
theorem c8_null_or_absent_id_is_notification_witness :
    process_rpc_message envelopeNullId RPCSubscriber.new
      = .ok (⟨[], [], [], [ "this is notification"]⟩, RPCSubscriber.new) :=
  c8_null_or_absent_id_is_notification envelopeNullId RPCSubscriber.new
    (Or.inl ⟨some Version.V2, Json.num 7, rfl⟩)

/-- C9: dispatching a response does not remove the resolved entry from
the pending table, whether the success or the error callback is invoked:
after a success envelope fires the success handler, and after a failure
envelope fires the error handler, the callback pair for that id stays
registered (the dispatch leaves the subscriber untouched), so a second
identical envelope invokes the same callback again with the same
argument. -/
theorem c9_table_entry_survives_dispatch (sOk sFail : String) (sub : RPCSubscriber)
    (v w : Option Version) (r : Json) (e : ErrorObj) (i j : Nat) (cb errCb : RPCHandler)
    (hOk : Response.from_json sOk = some (.Single (.Success ⟨v, r, Id.Num i⟩)))
    (hFail : Response.from_json sFail = some (.Single (.Failure ⟨w, e, Id.Num j⟩)))
    (hreg : sub.get_handler i = some cb)
    (hregErr : sub.get_error_handler j = some errCb) :
    (∃ eff sub2, process_rpc_message sOk sub = .ok (eff, sub2)
      ∧ sub2 = sub
      ∧ eff.rpcInvoked = [(cb, r.render)]
      ∧ sub2.get_handler i = some cb
      ∧ process_rpc_message sOk sub2 = .ok (eff, sub2))
    ∧ (∃ eff sub2, process_rpc_message sFail sub = .ok (eff, sub2)
      ∧ sub2 = sub
      ∧ eff.rpcInvoked = [(errCb, e.message)]
      ∧ sub2.get_error_handler j = some errCb
      ∧ process_rpc_message sFail sub2 = .ok (eff, sub2)) := by
  have h1 := process_rpc_success_invokes sOk sub v r i cb hOk hreg
  have h2 := process_rpc_failure_invokes sFail sub w e j errCb hFail hregErr
  exact ⟨⟨⟨[], [i], [(cb, r.render)], []⟩, sub, h1, rfl, rfl, hreg, h1⟩,
    ⟨⟨[], [j], [(errCb, e.message)], []⟩, sub, h2, rfl, rfl, hregErr, h2⟩⟩

/-- The subscriber of the C9 witness: success handler 5 and error
handler 6 both registered for id 0. -/
def subC9 : RPCSubscriber := (RPCSubscriber.new.set_handler 0 5).set_error_handler 0 6

/-- C9 witness: the client `subC9` receives the success envelope
`envelopeOkId0` twice and the failure envelope `envelopeFailId0` twice;
both entries survive their first dispatch and fire again. -/
theorem c9_table_entry_survives_dispatch_witness :
    (∃ eff sub2, process_rpc_message envelopeOkId0 subC9 = .ok (eff, sub2)
      ∧ sub2 = subC9
      ∧ eff.rpcInvoked = [(5, Json.render (Json.num 7))]
      ∧ sub2.get_handler 0 = some 5
      ∧ process_rpc_message envelopeOkId0 sub2 = .ok (eff, sub2))
    ∧ (∃ eff sub2, process_rpc_message envelopeFailId0 subC9 = .ok (eff, sub2)
      ∧ sub2 = subC9
      ∧ eff.rpcInvoked = [(6, "boom")]
      ∧ sub2.get_error_handler 0 = some 6
      ∧ process_rpc_message envelopeFailId0 sub2 = .ok (eff, sub2)) :=
  c9_table_entry_survives_dispatch envelopeOkId0 envelopeFailId0 subC9
    (some Version.V2) (some Version.V2) (Json.num 7) ⟨-32000, "boom"⟩ 0 0 5 6
    rfl rfl rfl rfl

/-- C10: `send_text_rpc` (and the binary variant) registers the success
and error handlers under the freshly allocated id before the transport
send is attempted; a transport send failure is silently discarded — the
resulting state is identical whether the send succeeds or fails, the
handler pair stays in the table, and the caller observes no error. -/
theorem c10_send_rpc_registers_then_discards (sub : RPCSubscriber) (m : String)
    (prm : Params) (cb errCb : RPCHandler) (sendOk : Bool) :
    ∃ frame : String, ∃ sub2 : RPCSubscriber,
      send_text_rpc ⟨some sub⟩ m prm cb errCb sendOk
        = (⟨some sub2⟩, [RpcEv.registered sub.id, RpcEv.registeredErr sub.id,
            RpcEv.sendAttempt frame sendOk])
      ∧ sub2.get_handler sub.id = some cb
      ∧ sub2.get_error_handler sub.id = some errCb
      ∧ (send_text_rpc ⟨some sub⟩ m prm cb errCb true).1
          = (send_text_rpc ⟨some sub⟩ m prm cb errCb false).1
      ∧ send_binary_rpc ⟨some sub⟩ m prm cb errCb sendOk
          = send_text_rpc ⟨some sub⟩ m prm cb errCb sendOk := by
  refine ⟨serializeCall (RPCSubscriber.build_request sub.id m prm),
    ((sub.prepare_request m prm).2.set_handler sub.id cb).set_error_handler sub.id errCb,
    rfl, ?_, ?_, rfl, rfl⟩
  · simp [RPCSubscriber.get_handler, RPCSubscriber.set_handler,
      RPCSubscriber.set_error_handler, RPCSubscriber.prepare_request,
      findHandler_insertHandler_self]
  · simp [RPCSubscriber.get_error_handler, RPCSubscriber.set_handler,
      RPCSubscriber.set_error_handler, RPCSubscriber.prepare_request,
      findHandler_insertHandler_self]

end WsClient
